import Mathlib

/-!
Verification of the alert-processing pipeline of the telegram-alert-bot
repository: a shallow embedding of the two alert managers (`alerts.py`
`AlertManager`, `bot.py` `AlertManager`), of the critical-alert monitor
(`bot.py` `RealDataProvider.check_critical_alerts`) and of the background
critical-alert job (`bot.py` `critical_alert_job`), followed by theorems
settling the specification's claims.

Python dictionaries are embedded as association lists (insertion order,
in-place update on an existing key, append on a new key); `datetime`
instants are embedded as integers counting seconds, and elapsed times as
integer differences.  Side effects of the bot API (send/delete message)
are embedded as explicit outcome oracles and event traces.
-/

namespace TGBot

/-- Lookup in a Python-style dict embedded as an association list. -/
def dget {K V : Type} [DecidableEq K] : List (K × V) → K → Option V
  | [], _ => none
  | (k', v) :: rest, k => if k = k' then some v else dget rest k

/-- Assignment `d[k] = v` in a Python-style dict: replaces the entry in
place when the key is present, appends otherwise. -/
def dset {K V : Type} [DecidableEq K] : List (K × V) → K → V → List (K × V)
  | [], k, v => [(k, v)]
  | (k', v') :: rest, k, v =>
      if k = k' then (k, v) :: rest else (k', v') :: dset rest k v

/-- `config.py` `AlertLevel` (a string enum with values info/warning/critical). -/
inductive AlertLevel where
  | info
  | warning
  | critical
deriving DecidableEq

namespace Alerts

/-- `alerts.py` `AlertRecord` dataclass.  Timestamps are integer seconds. -/
structure AlertRecord where
  id : String
  level : AlertLevel
  message : String
  source : String
  timestamp : Int
  acknowledged : Bool := false
  notification_sent : Bool := false
deriving DecidableEq

/-- `alerts.py` `AlertGroup` dataclass.  The group key `"level:source"` is
embedded as the pair of its components. -/
structure AlertGroup where
  key : AlertLevel × String
  alerts : List AlertRecord := []
  last_notification : Option Int := none
  count : Nat := 0
deriving DecidableEq

/-- Mutable state of `alerts.py` `AlertManager`: the history dict
`self.alerts`, the group dict `self.groups`, the cooldown dict
`self.cooldowns`, and the three configuration fields read from settings. -/
structure AMState where
  alerts : List (String × AlertRecord)
  groups : List ((AlertLevel × String) × AlertGroup)
  cooldowns : List ((AlertLevel × String × String) × Int)
  min_level : AlertLevel
  cooldown_seconds : Int
  grouping_enabled : Bool
deriving DecidableEq

/-- The `level_order` ranking dict used by `should_notify` and by
`_send_grouped_notification` (`.get(level, 0)` is total on the enum). -/
def levelOrder : AlertLevel → Nat
  | .info => 0
  | .warning => 1
  | .critical => 2

/-- Severity rank of a record, `level_order.get(a.level, 0)`. -/
def levelRank (a : AlertRecord) : Nat := levelOrder a.level

/-- The cooldown key `f"{alert.level}:{alert.source}:{alert.message[:20]}"`,
embedded as the tuple of the three components the f-string renders. -/
def cooldownKey (a : AlertRecord) : AlertLevel × String × String :=
  (a.level, a.source, a.message.take 20)

/-- `AlertManager.should_notify` (alerts.py lines 62-83): reject below the
minimum level, then reject when the cooldown entry for the alert's key is
within `cooldown_seconds` of `now`; pure, mutates nothing. -/
def should_notify (st : AMState) (now : Int) (a : AlertRecord) : Bool :=
  if levelOrder a.level < levelOrder st.min_level then false
  else
    match dget st.cooldowns (cooldownKey a) with
    | some last => if now - last < st.cooldown_seconds then false else true
    | none => true

/-- Setting `alert.notification_sent = True` on a record object that is
stored in the history dict under its id (records are keyed by their id, so
in-place object mutation is an update of the entry at that id). -/
def flagSent (a : AlertRecord) : AlertRecord := { a with notification_sent := true }

/-- Apply `flagSent` to the history entry stored under id `i`, if any. -/
def markNotified (al : List (String × AlertRecord)) (i : String) :
    List (String × AlertRecord) :=
  al.map fun p => if p.1 = i then (p.1, flagSent p.2) else p

/-- One delivery attempt per configured recipient: `fail u = true` embeds
`bot.send_message` raising for recipient `u` (caught per recipient by the
try/except inside the loop, so every recipient is attempted). -/
def attemptAll (recips : List Int) (fail : Int → Bool) : List (Int × Bool) :=
  recips.map fun u => (u, !fail u)

/-- Observable dispatch events of `AlertManager`: one single-alert send or
one grouped send, with the per-recipient delivery attempts. -/
inductive DispatchEvent where
  | single (a : AlertRecord) (attempts : List (Int × Bool))
  | grouped (rep : AlertRecord) (count : Nat) (attempts : List (Int × Bool))
deriving DecidableEq

/-- `AlertManager._send_notification` (alerts.py lines 129-147): set the
cooldown entry for the alert's key to now, set `notification_sent`, then
attempt delivery to every recipient, exceptions caught per recipient. -/
def send_single (recips : List Int) (fail : Int → Bool) (st : AMState)
    (now : Int) (a : AlertRecord) : AMState × List DispatchEvent :=
  ({ st with
      cooldowns := dset st.cooldowns (cooldownKey a) now,
      alerts := markNotified st.alerts a.id },
   [.single (flagSent a) (attemptAll recips fail)])

/-- Python `max(xs, key=rank)` starting from a current best: replaces the
best only on a strictly greater rank, so ties keep the earliest element. -/
def pyMax (rank : AlertRecord → Nat) : AlertRecord → List AlertRecord → AlertRecord
  | best, [] => best
  | best, a :: rest => pyMax rank (if rank best < rank a then a else best) rest

/-- The per-member state update of the loop at the end of
`_send_grouped_notification` (alerts.py lines 173-177): set the cooldown
entry of the member's key to now and set its `notification_sent` flag. -/
def dispatchStep (now : Int) (s : AMState) (m : AlertRecord) : AMState :=
  { s with
      cooldowns := dset s.cooldowns (cooldownKey m) now,
      alerts := markNotified s.alerts m.id }

/-- `AlertManager._send_grouped_notification` (alerts.py lines 149-177):
return immediately on an empty group; otherwise pick the most severe member
(`max` with the severity ranking, first-seen wins ties), attempt delivery to
every recipient, then set the cooldown entry of every member's key to now
and set `notification_sent` on every member. -/
def send_grouped (recips : List Int) (fail : Int → Bool) (st : AMState)
    (now : Int) (g : AlertGroup) : AMState × List DispatchEvent :=
  match g.alerts with
  | [] => (st, [])
  | a :: rest =>
      let main := pyMax levelRank a rest
      let st' := (a :: rest).foldl (dispatchStep now) st
      (st', [.grouped main (a :: rest).length (attemptAll recips fail)])

/-- The `should_send` computation of `AlertManager._process_grouped`
(alerts.py lines 108-121), evaluated after the alert has been appended and
the count incremented: send when the alert is critical, or the group has no
last notification time, or (elapsed since the last notification is at least
30 seconds and the group count is at least 3). -/
def flushDecision (now : Int) (g : AlertGroup) (a : AlertRecord) : Bool :=
  if a.level = .critical then true
  else
    match g.last_notification with
    | none => true
    | some t => decide (30 ≤ now - t) && decide (3 ≤ g.count)

/-- `AlertManager._process_grouped` (alerts.py lines 98-127), first part:
the in-place group mutation `group.key = group_key`,
`group.alerts.append(alert)`, `group.count += 1`.  The rest of the method
is `process_grouped` below: the group dict is `defaultdict(AlertGroup)`,
but the `AlertGroup` dataclass has no default for its required `key` field,
so accessing a missing group key calls `AlertGroup()` and raises
`TypeError`; this is embedded as `.error` carrying the manager state at the
moment of the raise.  On an existing group: ingest the alert, then branch
on `flushDecision`; after a flush the stored group is emptied, its count
zeroed and its last flush time set to now. -/
def ingestGroup (g0 : AlertGroup) (a : AlertRecord) : AlertGroup :=
  { g0 with
      key := (a.level, a.source),
      alerts := g0.alerts ++ [a],
      count := g0.count + 1 }

/-- `AlertManager._process_grouped` continued (see the doc comment above
`ingestGroup` and the crash note below). -/
def process_grouped (recips : List Int) (fail : Int → Bool) (st : AMState)
    (now : Int) (a : AlertRecord) :
    Except AMState (AMState × List DispatchEvent) :=
  let gk := (a.level, a.source)
  match dget st.groups gk with
  | none => .error st
  | some g0 =>
      let g : AlertGroup := ingestGroup g0 a
      if flushDecision now g a then
        let (st', ev) := send_grouped recips fail st now g
        .ok ({ st' with
                groups := dset st'.groups gk
                  { g with alerts := [], count := 0, last_notification := some now } },
             ev)
      else
        .ok ({ st with groups := dset st.groups gk g }, [])

/-- `AlertManager.process_alert` (alerts.py lines 85-96): record the alert
into the history dict under its id, return with no dispatch when
`should_notify` rejects, otherwise go through the grouping engine or the
single-alert send according to configuration. -/
def process_alert (recips : List Int) (fail : Int → Bool) (st : AMState)
    (now : Int) (a : AlertRecord) :
    Except AMState (AMState × List DispatchEvent) :=
  let st1 := { st with alerts := dset st.alerts a.id a }
  if !(should_notify st1 now a) then .ok (st1, [])
  else if st1.grouping_enabled then process_grouped recips fail st1 now a
  else .ok (send_single recips fail st1 now a)

/-- Manager state after a call, whether it returned or raised. -/
def resState : Except AMState (AMState × List DispatchEvent) → AMState
  | .error s => s
  | .ok (s, _) => s

/-- Dispatch events of a call; a raise dispatches nothing. -/
def resEvents : Except AMState (AMState × List DispatchEvent) → List DispatchEvent
  | .error _ => []
  | .ok (_, evs) => evs

/-- `AlertManager.acknowledge` (alerts.py lines 220-225): look the id up in
the history dict, set `acknowledged` in place and return True when present,
return False untouched otherwise. -/
def acknowledge (st : AMState) (i : String) : AMState × Bool :=
  match dget st.alerts i with
  | some a =>
      ({ st with alerts := dset st.alerts i { a with acknowledged := true } }, true)
  | none => (st, false)

end Alerts

namespace BotM

/-- `bot.py` `AlertRecord` dataclass: levels are the strings "!" (critical)
and "i" (info/warning). -/
structure BRecord where
  id : String
  level : String
  message : String
  source : String
  timestamp : Int
  acknowledged : Bool := false
deriving DecidableEq

/-- Mutable state of `bot.py` `AlertManager`: the history deque (oldest
first, bounded by `max_history`), the per-chat active critical alert
message ids, the last-critical pointer and the id counter.  The Python
`last_critical` field holds a reference to a record object; with ids unique
per manager this aliasing is embedded by matching on the stored id. -/
structure BState where
  history : List BRecord
  max_history : Nat
  active_alert_messages : List (Int × Int)
  last_critical : Option BRecord
  alert_counter : Nat
deriving DecidableEq

/-- Zero-padding of `f"{n:04d}"`. -/
def pad4 (n : Nat) : String :=
  let s := toString n
  if s.length < 4 then String.mk (List.replicate (4 - s.length) '0') ++ s else s

/-- `AlertManager.add_alert` (bot.py lines 54-69): bump the counter, build
the record with id `ALR-NNNN`, append to the deque (which drops the oldest
entry when the bound is exceeded; a zero bound keeps the deque empty), and
point `last_critical` at the record when the level is "!". -/
def add_alert (st : BState) (now : Int) (level message source : String) :
    BState × BRecord :=
  let c := st.alert_counter + 1
  let r : BRecord :=
    { id := "ALR-" ++ pad4 c, level := level, message := message,
      source := source, timestamp := now }
  let h := (st.history ++ [r]).drop (st.history.length + 1 - st.max_history)
  ({ st with
      history := h,
      alert_counter := c,
      last_critical := if level = "!" then some r else st.last_critical }, r)

/-- The loop body of `AlertManager.acknowledge` (bot.py lines 81-87): walk
the history, set `acknowledged` on the first record with the given id and
stop; report whether one was found. -/
def ackList : List BRecord → String → List BRecord × Bool
  | [], _ => ([], false)
  | r :: rest, i =>
      if r.id = i then (({ r with acknowledged := true }) :: rest, true)
      else
        let (rest', found) := ackList rest i
        (r :: rest', found)

/-- `AlertManager.acknowledge` (bot.py lines 81-87), with the aliasing of
`last_critical` into the history made explicit: when the acknowledged
record is the one `last_critical` points at, the pointer sees the flag. -/
def acknowledge (st : BState) (i : String) : BState × Bool :=
  let (h, found) := ackList st.history i
  ({ st with
      history := h,
      last_critical :=
        match st.last_critical with
        | some lc =>
            if found ∧ lc.id = i then some { lc with acknowledged := true }
            else some lc
        | none => none }, found)

end BotM

namespace Monitor

/-- `dashboard.py` `Alert` dataclass: level "!" is critical, "i" is info. -/
structure SAlert where
  level : String
  message : String
deriving DecidableEq

/-- The first critical alert of a tick, `critical[0]` where
`critical = [a for a in alerts if a.level == "!"]`. -/
def firstCritical (alerts : List SAlert) : Option SAlert :=
  (alerts.filter fun a => a.level = "!").head?

/-- `RealDataProvider.check_critical_alerts` (bot.py lines 276-290), as a
function of the `_last_critical` state and the tick's alert list; returns
the alert to report (if any) and the new `_last_critical` state. -/
def check_critical_alerts (last : Option SAlert) (alerts : List SAlert) :
    Option SAlert × Option SAlert :=
  match firstCritical alerts with
  | none => (none, none)
  | some newAlert =>
      match last with
      | none => (some newAlert, some newAlert)
      | some lc =>
          if lc.message ≠ newAlert.message then (some newAlert, some newAlert)
          else (none, some lc)

end Monitor

namespace Job

/-- Outcome of `bot.delete_message` for a recipient: success, or the
`BadRequest` raised when the message is already gone (the failure mode the
job handles; its inner try/except swallows it). -/
inductive DelRes where
  | ok
  | badRequest
deriving DecidableEq

/-- Per-recipient outcome oracles for one run of the job: the delete
outcome, and the send outcome (`some messageId` on success, `none` when
`send_message` raises, caught by the per-recipient try/except). -/
structure Env where
  delRes : Int → DelRes
  sendRes : Int → Option Int

/-- Observable bot-API events of one job run, in order. -/
inductive JobEvent where
  | deleteAttempt (uid mid : Int) (res : DelRes)
  | sendAttempt (uid : Int) (ok : Bool)
deriving DecidableEq

/-- One iteration of the recipient loop of `critical_alert_job` (bot.py
lines 987-1025): when an active critical message is tracked for the
recipient, attempt to delete it first (a `BadRequest` is swallowed), then
send the new alert; on send success the tracked message id is replaced, on
send failure the loop logs and moves on, leaving the tracking unchanged. -/
def handleRecipient (env : Env) (active : List (Int × Int)) (uid : Int) :
    List (Int × Int) × List JobEvent :=
  let delEvents :=
    match dget active uid with
    | some mid => [JobEvent.deleteAttempt uid mid (env.delRes uid)]
    | none => []
  match env.sendRes uid with
  | some m => (dset active uid m, delEvents ++ [JobEvent.sendAttempt uid true])
  | none => (active, delEvents ++ [JobEvent.sendAttempt uid false])

/-- The recipient loop of `critical_alert_job`, threading the
`active_alert_messages` dict and accumulating the bot-API events. -/
def runJobAux (env : Env) : List Int → List (Int × Int) → List JobEvent →
    List (Int × Int) × List JobEvent
  | [], active, acc => (active, acc)
  | uid :: rest, active, acc =>
      runJobAux env rest (handleRecipient env active uid).1
        (acc ++ (handleRecipient env active uid).2)

/-- The recipient loop of `critical_alert_job` over the configured
recipient list, started with no events and the current tracking dict. -/
def runJob (env : Env) (recips : List Int) (active : List (Int × Int)) :
    List (Int × Int) × List JobEvent :=
  runJobAux env recips active []

end Job

/-- Reference flush policy, stated from the spec's words for comparison
with `Alerts.process_grouped`: flush iff the alert is CRITICAL, or the
group has never flushed (`lastFlushTime is None`), or both the elapsed time
since the last flush is at least 30 seconds and the pending count is at
least 3. -/
def specFlushDecision (level : AlertLevel) (lastFlush : Option Int)
    (pending : Nat) (now : Int) : Bool :=
  decide (level = .critical) ||
    match lastFlush with
    | none => true
    | some t => decide (30 ≤ now - t) && decide (3 ≤ pending)

/-- Delivery oracle under which no send fails. -/
def noFail : Int → Bool := fun _ => false

/-- Delivery oracle under which every send fails. -/
def allFail : Int → Bool := fun _ => true

/-- `AlertManager.__init__` state under the default configuration
(`alert_min_level` warning, `alert_cooldown` 300, `alert_grouping` true). -/
def initAM : Alerts.AMState :=
  { alerts := [], groups := [], cooldowns := [],
    min_level := .warning, cooldown_seconds := 300, grouping_enabled := true }

/-- Sample warning alert. -/
def aW : Alerts.AlertRecord :=
  { id := "ALR-0001", level := .warning, message := "CPU 85 percent",
    source := "api-2", timestamp := 0 }

/-- Sample warning alert for an existing group. -/
def aW3 : Alerts.AlertRecord :=
  { id := "ALR-0003", level := .warning, message := "Disk 91 percent",
    source := "api-2", timestamp := 0 }

/-- Sample critical alert. -/
def aC : Alerts.AlertRecord :=
  { id := "ALR-0009", level := .critical, message := "CPU 99 percent",
    source := "db-1", timestamp := 0 }

/-- Two warning members already pending in the `(warning, "api-2")` group. -/
def g1 : Alerts.AlertRecord :=
  { id := "g1", level := .warning, message := "CPU 82 percent",
    source := "api-2", timestamp := 0 }

/-- Second pending warning member. -/
def g2 : Alerts.AlertRecord :=
  { id := "g2", level := .warning, message := "Mem 88 percent",
    source := "api-2", timestamp := 0 }

/-- Manager state with an existing, previously flushed warning group for
source "api-2" holding two pending members (last flush at instant 0). -/
def stG : Alerts.AMState :=
  { initAM with
      groups := [((AlertLevel.warning, "api-2"),
        { key := (AlertLevel.warning, "api-2"), alerts := [g1, g2],
          last_notification := some 0, count := 2 })] }

/-- Manager state with an existing, previously flushed and currently empty
critical group for source "db-1" (last flush at instant 0). -/
def stGC : Alerts.AMState :=
  { initAM with
      groups := [((AlertLevel.critical, "db-1"),
        { key := (AlertLevel.critical, "db-1"), alerts := [],
          last_notification := some 0, count := 0 })] }

/-- Manager state whose cooldown table records a dispatch of `aW`'s
cooldown key at instant 0. -/
def stCd : Alerts.AMState :=
  { initAM with cooldowns := [(Alerts.cooldownKey aW, 0)] }

/-- Info-level alert number `n`, with a distinct id per `n`. -/
def mkInfo (n : Nat) : Alerts.AlertRecord :=
  { id := toString n, level := .info, message := "minor condition",
    source := "s", timestamp := 0 }

/-- The `alerts.py` manager state after processing 101 distinct info-level
alerts from the default initial state (each is recorded in the history dict
and rejected by the severity gate, so processing returns normally). -/
def run101 : Alerts.AMState :=
  (List.range 101).foldl
    (fun s n => Alerts.resState (Alerts.process_alert [] noFail s 0 (mkInfo n)))
    initAM

/-- Members for the concrete representative-selection instance. -/
def w1 : Alerts.AlertRecord :=
  { id := "w1", level := .warning, message := "Mem 85 percent",
    source := "api-2", timestamp := 0 }

/-- The critical member of the instance. -/
def c1 : Alerts.AlertRecord :=
  { id := "c1", level := .critical, message := "CPU 99 percent",
    source := "api-2", timestamp := 0 }

/-- The trailing warning member of the instance. -/
def w2 : Alerts.AlertRecord :=
  { id := "w2", level := .warning, message := "Disk 87 percent",
    source := "api-2", timestamp := 0 }

/-- A concrete group whose members have levels [warning, critical, warning]
in insertion order. -/
def gWCW : Alerts.AlertGroup :=
  { key := (AlertLevel.warning, "api-2"), alerts := [w1, c1, w2],
    last_notification := none, count := 3 }

/-- An acknowledged sample record for the bounded-deque store. -/
def r0 : BotM.BRecord :=
  { id := "ALR-0000", level := "i", message := "old condition",
    source := "s", timestamp := 0, acknowledged := true }

/-- A full `bot.py` history store: 100 records at the default bound, all
acknowledged (the bound is independent of acknowledgement state). -/
def stFull : BotM.BState :=
  { history := List.replicate 100 r0, max_history := 100,
    active_alert_messages := [], last_critical := none, alert_counter := 100 }

/-- Sample job environment: every delete raises `BadRequest` (the prior
message is already gone) and every send succeeds with message id 7. -/
def envBR : Job.Env :=
  { delRes := fun _ => .badRequest, sendRes := fun _ => some 7 }

/-- Manager state holding exactly one history record. -/
def stOne : Alerts.AMState := { initAM with alerts := [("ALR-0001", aW)] }

/-- A second, unacknowledged record for the bot.py store. -/
def r2 : BotM.BRecord :=
  { id := "ALR-0002", level := "i", message := "second condition",
    source := "s", timestamp := 1 }

/-- A small bot.py store with two records. -/
def bst1 : BotM.BState :=
  { history := [r0, r2], max_history := 100, active_alert_messages := [],
    last_critical := none, alert_counter := 2 }

/-- A critical monitor alert. -/
def sC : Monitor.SAlert := { level := "!", message := "CPU 97 on db-1" }

/-- A non-critical monitor alert. -/
def sI : Monitor.SAlert := { level := "i", message := "minor condition" }

theorem dget_dset {K V : Type} [DecidableEq K] (d : List (K × V)) (j k : K) (v : V) :
    dget (dset d j v) k = if k = j then some v else dget d k := by
  induction d with
  | nil => simp [dset, dget]
  | cons p rest ih =>
      obtain ⟨k', v'⟩ := p
      by_cases hj : j = k'
      · subst hj
        by_cases hk : k = j <;> simp [dset, dget, hk]
      · by_cases hk : k = k'
        · subst hk
          have hkj : ¬k = j := fun h => hj h.symm
          simp [dset, dget, hj, hkj]
        · simp [dset, dget, hj, hk, ih]

theorem keys_dset {K V : Type} [DecidableEq K] (d : List (K × V)) (k : K) (v : V) :
    (dset d k v).map Prod.fst =
      if k ∈ d.map Prod.fst then d.map Prod.fst else d.map Prod.fst ++ [k] := by
  induction d with
  | nil => simp [dset]
  | cons p rest ih =>
      obtain ⟨k', v'⟩ := p
      by_cases hk : k = k'
      · subst hk
        simp [dset]
      · by_cases hmem : k ∈ rest.map Prod.fst <;> simp [dset, hk, ih, hmem]

theorem nodup_keys_dset {K V : Type} [DecidableEq K] (d : List (K × V)) (k : K) (v : V)
    (h : (d.map Prod.fst).Nodup) : ((dset d k v).map Prod.fst).Nodup := by
  rw [keys_dset]
  by_cases hmem : k ∈ d.map Prod.fst
  · simpa [hmem] using h
  · simp only [hmem, if_false]
    exact List.Nodup.append h (List.nodup_singleton k)
      (by simpa [List.disjoint_singleton] using hmem)

theorem dget_markNotified (al : List (String × Alerts.AlertRecord)) (i j : String) :
    dget (Alerts.markNotified al j) i =
      if i = j then (dget al i).map Alerts.flagSent else dget al i := by
  induction al with
  | nil => simp [Alerts.markNotified, dget]
  | cons p rest ih =>
      obtain ⟨k, r⟩ := p
      have hmap : Alerts.markNotified ((k, r) :: rest) j =
          (if k = j then (k, Alerts.flagSent r) else (k, r)) :: Alerts.markNotified rest j := rfl
      rw [hmap]
      by_cases hkj : k = j
      · subst hkj
        rw [if_pos rfl]
        by_cases hik : i = k
        · subst hik
          simp [dget]
        · simp [dget, hik, ih]
      · rw [if_neg hkj]
        by_cases hik : i = k
        · subst hik
          simp [dget, hkj]
        · simp [dget, hik, ih]

theorem flagSent_idem (r : Alerts.AlertRecord) :
    Alerts.flagSent (Alerts.flagSent r) = Alerts.flagSent r := rfl

theorem dget_foldMark (ms : List Alerts.AlertRecord)
    (al : List (String × Alerts.AlertRecord)) (i : String) :
    dget (ms.foldl (fun x m => Alerts.markNotified x m.id) al) i =
      if ms.any (fun m => m.id = i) then (dget al i).map Alerts.flagSent
      else dget al i := by
  induction ms generalizing al with
  | nil => simp
  | cons m rest ih =>
      by_cases hm : m.id = i
      · by_cases hr : rest.any (fun m => m.id = i) = true
        · simp [List.foldl, ih, hm, hr, dget_markNotified]
          cases dget al i <;> simp [flagSent_idem]
        · simp [List.foldl, ih, hm, hr, dget_markNotified]
      · simp [List.foldl, ih, hm, dget_markNotified,
          show ¬(i = m.id) from fun h => hm h.symm]

theorem dget_foldCool (now : Int) (ms : List Alerts.AlertRecord)
    (cds : List ((AlertLevel × String × String) × Int)) (k : AlertLevel × String × String) :
    dget (ms.foldl (fun c m => dset c (Alerts.cooldownKey m) now) cds) k =
      if ms.any (fun m => Alerts.cooldownKey m = k) then some now else dget cds k := by
  induction ms generalizing cds with
  | nil => simp
  | cons m rest ih =>
      by_cases hm : Alerts.cooldownKey m = k
      · by_cases hr : rest.any (fun m => Alerts.cooldownKey m = k) = true <;>
          simp [List.foldl, ih, hm, hr, dget_dset]
      · simp [List.foldl, ih, hm, dget_dset,
          show ¬(k = Alerts.cooldownKey m) from fun h => hm h.symm]

theorem foldl_dispatchStep (now : Int) (ms : List Alerts.AlertRecord)
    (st : Alerts.AMState) :
    ms.foldl (Alerts.dispatchStep now) st =
      { st with
          cooldowns := ms.foldl (fun c m => dset c (Alerts.cooldownKey m) now) st.cooldowns,
          alerts := ms.foldl (fun x m => Alerts.markNotified x m.id) st.alerts } := by
  induction ms generalizing st with
  | nil => rfl
  | cons m rest ih => simp [List.foldl, Alerts.dispatchStep, ih]

theorem should_notify_alerts_irrel (st : Alerts.AMState)
    (x : List (String × Alerts.AlertRecord)) (now : Int) (a : Alerts.AlertRecord) :
    Alerts.should_notify { st with alerts := x } now a =
      Alerts.should_notify st now a := rfl

theorem pyMax_first_max (rank : Alerts.AlertRecord → Nat) (best : Alerts.AlertRecord)
    (l : List Alerts.AlertRecord) :
    ∃ pre post,
      best :: l = pre ++ Alerts.pyMax rank best l :: post ∧
      (∀ b ∈ pre, rank b < rank (Alerts.pyMax rank best l)) ∧
      (∀ b ∈ best :: l, rank b ≤ rank (Alerts.pyMax rank best l)) := by
  induction l generalizing best with
  | nil =>
      exact ⟨[], [], rfl, by simp, by simp [Alerts.pyMax]⟩
  | cons a rest ih =>
      by_cases h : rank best < rank a
      · have hunf : Alerts.pyMax rank best (a :: rest) = Alerts.pyMax rank a rest := by
          simp [Alerts.pyMax, h]
        obtain ⟨pre, post, heq, hpre, hmax⟩ := ih a
        rw [hunf]
        refine ⟨best :: pre, post, by rw [List.cons_append, ← heq], ?_, ?_⟩
        · intro b hb
          rcases List.mem_cons.mp hb with hb | hb
          · subst hb
            exact lt_of_lt_of_le h (hmax a (by simp))
          · exact hpre b hb
        · intro b hb
          rcases List.mem_cons.mp hb with hb | hb
          · subst hb
            exact le_of_lt (lt_of_lt_of_le h (hmax a (by simp)))
          · exact hmax b hb
      · have hunf : Alerts.pyMax rank best (a :: rest) = Alerts.pyMax rank best rest := by
          simp [Alerts.pyMax, h]
        obtain ⟨pre, post, heq, hpre, hmax⟩ := ih best
        rw [hunf]
        cases pre with
        | nil =>
            simp only [List.nil_append] at heq
            injection heq with h1 h2
            have hbr : rank best = rank (Alerts.pyMax rank best rest) := by rw [← h1]
            refine ⟨[], a :: rest, by rw [List.nil_append, ← h1], by simp, ?_⟩
            intro b hb
            rcases List.mem_cons.mp hb with hb | hb
            · subst hb; exact hbr.le
            · rcases List.mem_cons.mp hb with hb | hb
              · subst hb
                exact (le_of_not_lt h).trans hbr.le
              · exact hmax b (List.mem_cons_of_mem _ (h2 ▸ hb))
        | cons p0 pre' =>
            rw [List.cons_append] at heq
            injection heq with h1 h2
            have hbestlt : rank best < rank (Alerts.pyMax rank best rest) := by
              have hx := hpre p0 (List.mem_cons_self _ _)
              rwa [← h1] at hx
            have hbestle : rank best ≤ rank (Alerts.pyMax rank best rest) :=
              hmax best (List.mem_cons_self _ _)
            refine ⟨best :: a :: pre', post, ?_, ?_, ?_⟩
            · rw [List.cons_append, List.cons_append, ← h2]
            · intro b hb
              rcases List.mem_cons.mp hb with hb | hb
              · subst hb
                exact hbestlt
              · rcases List.mem_cons.mp hb with hb | hb
                · subst hb
                  exact lt_of_le_of_lt (le_of_not_lt h) hbestlt
                · exact hpre b (List.mem_cons_of_mem _ hb)
            · intro b hb
              rcases List.mem_cons.mp hb with hb | hb
              · subst hb
                exact hbestle
              · rcases List.mem_cons.mp hb with hb | hb
                · subst hb
                  exact le_trans (le_of_not_lt h) hbestle
                · exact hmax b (List.mem_cons_of_mem _ hb)

theorem ackList_spec (l : List BotM.BRecord) (i : String) :
    ((BotM.ackList l i).2 = false → (BotM.ackList l i).1 = l ∧ ∀ x ∈ l, x.id ≠ i) ∧
    ((BotM.ackList l i).2 = true →
      ∃ pre r post, l = pre ++ r :: post ∧ r.id = i ∧ (∀ x ∈ pre, x.id ≠ i) ∧
        (BotM.ackList l i).1 = pre ++ ({ r with acknowledged := true }) :: post) := by
  induction l with
  | nil =>
      constructor
      · intro _
        exact ⟨rfl, by simp⟩
      · intro hf
        simp [BotM.ackList] at hf
  | cons r rest ih =>
      by_cases h : r.id = i
      · have hunf : BotM.ackList (r :: rest) i =
            (({ r with acknowledged := true }) :: rest, true) := by
          simp [BotM.ackList, h]
        constructor
        · intro hf
          rw [hunf] at hf
          simp at hf
        · intro _
          refine ⟨[], r, rest, rfl, h, by simp, ?_⟩
          rw [hunf]
          simp
      · have hunf : BotM.ackList (r :: rest) i =
            (r :: (BotM.ackList rest i).1, (BotM.ackList rest i).2) := by
          simp [BotM.ackList, h]
        constructor
        · intro hf
          rw [hunf] at hf
          simp only at hf
          obtain ⟨he, hall⟩ := ih.1 hf
          constructor
          · rw [hunf]
            simp [he]
          · intro x hx
            rcases List.mem_cons.mp hx with hx | hx
            · subst hx; exact h
            · exact hall x hx
        · intro ht
          rw [hunf] at ht
          simp only at ht
          obtain ⟨pre, r', post, he, hid, hpre, hres⟩ := ih.2 ht
          refine ⟨r :: pre, r', post, by rw [he, List.cons_append], hid, ?_, ?_⟩
          · intro x hx
            rcases List.mem_cons.mp hx with hx | hx
            · subst hx; exact h
            · exact hpre x hx
          · rw [hunf]
            simp [hres, List.cons_append]

theorem process_alert_rejected (recips : List Int) (fail : Int → Bool)
    (st : Alerts.AMState) (now : Int) (a : Alerts.AlertRecord)
    (hsn : Alerts.should_notify st now a = false) :
    Alerts.process_alert recips fail st now a =
      .ok ({ st with alerts := dset st.alerts a.id a }, []) := by
  simp only [Alerts.process_alert, should_notify_alerts_irrel, hsn]
  rfl

theorem process_alert_pass (recips : List Int) (fail : Int → Bool)
    (st : Alerts.AMState) (now : Int) (a : Alerts.AlertRecord)
    (hsn : Alerts.should_notify st now a = true) :
    Alerts.process_alert recips fail st now a =
      if st.grouping_enabled then
        Alerts.process_grouped recips fail
          { st with alerts := dset st.alerts a.id a } now a
      else
        .ok (Alerts.send_single recips fail
          { st with alerts := dset st.alerts a.id a } now a) := by
  simp only [Alerts.process_alert, should_notify_alerts_irrel, hsn]
  rfl

theorem send_grouped_state (recips : List Int) (fail : Int → Bool)
    (st : Alerts.AMState) (now : Int) (g : Alerts.AlertGroup)
    (x : Alerts.AlertRecord) (xs : List Alerts.AlertRecord)
    (h : g.alerts = x :: xs) :
    (Alerts.send_grouped recips fail st now g).1 =
      { st with
          cooldowns := (x :: xs).foldl
            (fun c m => dset c (Alerts.cooldownKey m) now) st.cooldowns,
          alerts := (x :: xs).foldl
            (fun al m => Alerts.markNotified al m.id) st.alerts } := by
  simp [Alerts.send_grouped, h, foldl_dispatchStep, Alerts.dispatchStep]

theorem send_grouped_events (recips : List Int) (fail : Int → Bool)
    (st : Alerts.AMState) (now : Int) (g : Alerts.AlertGroup)
    (x : Alerts.AlertRecord) (xs : List Alerts.AlertRecord)
    (h : g.alerts = x :: xs) :
    (Alerts.send_grouped recips fail st now g).2 =
      [.grouped (Alerts.pyMax Alerts.levelRank x xs) (x :: xs).length
        (Alerts.attemptAll recips fail)] := by
  simp [Alerts.send_grouped, h]

theorem alerts_update_groups (st : Alerts.AMState)
    (y : List ((AlertLevel × String) × Alerts.AlertGroup)) :
    ({ st with groups := y } : Alerts.AMState).alerts = st.alerts := rfl

theorem cooldowns_update_groups (st : Alerts.AMState)
    (y : List ((AlertLevel × String) × Alerts.AlertGroup)) :
    ({ st with groups := y } : Alerts.AMState).cooldowns = st.cooldowns := rfl

theorem dget_send_grouped_alerts (recips : List Int) (fail : Int → Bool)
    (st : Alerts.AMState) (now : Int) (g : Alerts.AlertGroup) (i : String)
    (hmem : g.alerts.any (fun m => m.id = i) = true) :
    dget (Alerts.send_grouped recips fail st now g).1.alerts i =
      (dget st.alerts i).map Alerts.flagSent := by
  cases hg : g.alerts with
  | nil =>
      rw [hg] at hmem
      simp at hmem
  | cons x xs =>
      rw [hg] at hmem
      rw [send_grouped_state recips fail st now g x xs hg]
      rw [dget_foldMark]
      simp [hmem]

theorem dget_send_grouped_cooldowns (recips : List Int) (fail : Int → Bool)
    (st : Alerts.AMState) (now : Int) (g : Alerts.AlertGroup)
    (k : AlertLevel × String × String)
    (hmem : g.alerts.any (fun m => Alerts.cooldownKey m = k) = true) :
    dget (Alerts.send_grouped recips fail st now g).1.cooldowns k = some now := by
  cases hg : g.alerts with
  | nil =>
      rw [hg] at hmem
      simp at hmem
  | cons x xs =>
      rw [hg] at hmem
      rw [send_grouped_state recips fail st now g x xs hg]
      rw [dget_foldCool]
      simp [hmem]

theorem process_grouped_missing (recips : List Int) (fail : Int → Bool)
    (st : Alerts.AMState) (now : Int) (a : Alerts.AlertRecord)
    (h : dget st.groups (a.level, a.source) = none) :
    Alerts.process_grouped recips fail st now a = .error st := by
  simp [Alerts.process_grouped, h]

theorem process_grouped_found (recips : List Int) (fail : Int → Bool)
    (st : Alerts.AMState) (now : Int) (a : Alerts.AlertRecord)
    (g0 : Alerts.AlertGroup)
    (h : dget st.groups (a.level, a.source) = some g0) :
    Alerts.process_grouped recips fail st now a =
      if Alerts.flushDecision now (Alerts.ingestGroup g0 a) a then
        .ok ({ (Alerts.send_grouped recips fail st now
                  (Alerts.ingestGroup g0 a)).1 with
                groups := dset (Alerts.send_grouped recips fail st now
                    (Alerts.ingestGroup g0 a)).1.groups (a.level, a.source)
                  { Alerts.ingestGroup g0 a with
                      alerts := [],
                      count := 0,
                      last_notification := some now } },
             (Alerts.send_grouped recips fail st now (Alerts.ingestGroup g0 a)).2)
      else
        .ok ({ st with
                groups := dset st.groups (a.level, a.source)
                  (Alerts.ingestGroup g0 a) }, []) := by
  simp [Alerts.process_grouped, h]

theorem process_grouped_records (recips : List Int) (fail : Int → Bool)
    (st : Alerts.AMState) (now : Int) (a : Alerts.AlertRecord)
    (hbase : dget st.alerts a.id = some a) :
    ∃ b, dget (Alerts.resState
        (Alerts.process_grouped recips fail st now a)).alerts a.id =
      some { a with notification_sent := b } := by
  cases hgr : dget st.groups (a.level, a.source) with
  | none =>
      rw [process_grouped_missing recips fail st now a hgr]
      exact ⟨a.notification_sent, by simpa [Alerts.resState] using hbase⟩
  | some g0 =>
      rw [process_grouped_found recips fail st now a g0 hgr]
      split
      · refine ⟨true, ?_⟩
        simp only [Alerts.resState, alerts_update_groups]
        rw [dget_send_grouped_alerts recips fail st now _ a.id
          (by simp [Alerts.ingestGroup])]
        rw [hbase]
        simp [Alerts.flagSent]
      · refine ⟨a.notification_sent, ?_⟩
        simp only [Alerts.resState, alerts_update_groups]
        exact hbase

theorem send_grouped_state_ne (recips : List Int) (fail : Int → Bool)
    (st : Alerts.AMState) (now : Int) (g : Alerts.AlertGroup)
    (h : g.alerts ≠ []) :
    (Alerts.send_grouped recips fail st now g).1 =
      { st with
          cooldowns := g.alerts.foldl
            (fun c m => dset c (Alerts.cooldownKey m) now) st.cooldowns,
          alerts := g.alerts.foldl
            (fun al m => Alerts.markNotified al m.id) st.alerts } := by
  cases hg : g.alerts with
  | nil => exact absurd hg h
  | cons x xs =>
      rw [send_grouped_state recips fail st now g x xs hg]

/-- Claim C1: for two alerts with the same cooldown key (level, source,
first 20 characters of the message), when the cooldown table holds the
dispatch instant of the first and the second is processed strictly within
`cooldown_seconds` of it, `should_notify` returns false for the second and
`process_alert` invokes no dispatch path (it only records the alert). -/
theorem cooldown_window_suppresses (recips : List Int) (fail : Int → Bool)
    (st : Alerts.AMState) (now : Int) (a1 a2 : Alerts.AlertRecord) (t1 : Int)
    (hkey : Alerts.cooldownKey a1 = Alerts.cooldownKey a2)
    (hcd : dget st.cooldowns (Alerts.cooldownKey a1) = some t1)
    (hwin : now - t1 < st.cooldown_seconds) :
    Alerts.should_notify st now a2 = false ∧
    Alerts.process_alert recips fail st now a2 =
      .ok ({ st with alerts := dset st.alerts a2.id a2 }, []) := by
  rw [hkey] at hcd
  have hsn : Alerts.should_notify st now a2 = false := by
    unfold Alerts.should_notify
    rw [hcd]
    by_cases hl : Alerts.levelOrder a2.level < Alerts.levelOrder st.min_level
    · simp [hl]
    · simp [hl, hwin]
  exact ⟨hsn, process_alert_rejected recips fail st now a2 hsn⟩

/-- Witness for C1: the manager whose cooldown table records a dispatch of
`aW`'s key at instant 0 suppresses `aW` again at instant 10 (window 300). -/
theorem cooldown_window_suppresses_witness :
    Alerts.should_notify stCd 10 aW = false ∧
    Alerts.process_alert [] noFail stCd 10 aW =
      .ok ({ stCd with alerts := dset stCd.alerts aW.id aW }, []) :=
  cooldown_window_suppresses [] noFail stCd 10 aW aW 0 rfl (by rfl) (by decide)

/-- Claim C2 (code bug): the `should_send` computation agrees with the
reference flush policy for every group state, but the policy's cold-start
case is unreachable: processing the first admitted non-critical alert for a
fresh (level, source) key — where the policy mandates an immediate flush —
raises `TypeError` instead, because `defaultdict(AlertGroup)` invokes
`AlertGroup()` without its required `key` argument.  On pre-existing groups
the observable flush behaviour matches the policy (no flush for a warning
group of 3 with only 10s elapsed; flush with member count 3 at 40s; a
critical alert flushes immediately regardless of count and elapsed time). -/
theorem grouping_flush_policy :
    (∀ (now : Int) (g : Alerts.AlertGroup) (a : Alerts.AlertRecord),
      Alerts.flushDecision now g a =
        specFlushDecision a.level g.last_notification g.count now) ∧
    Alerts.process_alert [] noFail initAM 0 aW =
      .error { initAM with alerts := dset initAM.alerts aW.id aW } ∧
    specFlushDecision aW.level none 1 0 = true ∧
    Alerts.resEvents (Alerts.process_alert [] noFail stG 10 aW3) = [] ∧
    specFlushDecision aW3.level (some 0) 3 10 = false ∧
    Alerts.resEvents (Alerts.process_alert [] noFail stG 40 aW3) =
      [.grouped g1 3 []] ∧
    specFlushDecision aW3.level (some 0) 3 40 = true ∧
    Alerts.resEvents (Alerts.process_alert [] noFail stGC 5 aC) =
      [.grouped aC 1 []] ∧
    specFlushDecision aC.level (some 0) 1 5 = true := by
  refine ⟨?_, by rfl, by rfl, by rfl, by rfl, by rfl, by rfl, by rfl, by rfl⟩
  intro now g a
  unfold Alerts.flushDecision specFlushDecision
  by_cases hc : a.level = .critical
  · simp [hc]
  · cases hln : g.last_notification <;> simp [hc, hln]

/-- Claim C4: an alert ranking below the configured minimum severity is
recorded in the history dict and triggers no dispatch at all; moreover
every processed alert — admitted, rejected, or crashing in the grouping
engine — ends up recorded in history under its id (with only its
`notification_sent` flag possibly differing). -/
theorem severity_gate (recips : List Int) (fail : Int → Bool)
    (st : Alerts.AMState) (now : Int) (a : Alerts.AlertRecord) :
    (Alerts.levelOrder a.level < Alerts.levelOrder st.min_level →
      Alerts.should_notify st now a = false ∧
      Alerts.process_alert recips fail st now a =
        .ok ({ st with alerts := dset st.alerts a.id a }, [])) ∧
    (∃ b, dget (Alerts.resState
        (Alerts.process_alert recips fail st now a)).alerts a.id =
      some { a with notification_sent := b }) := by
  have hbase : dget (dset st.alerts a.id a) a.id = some a := by
    rw [dget_dset]
    simp
  constructor
  · intro hl
    have hsn : Alerts.should_notify st now a = false := by
      unfold Alerts.should_notify
      simp [hl]
    exact ⟨hsn, process_alert_rejected recips fail st now a hsn⟩
  · by_cases hsn : Alerts.should_notify st now a = true
    · rw [process_alert_pass recips fail st now a hsn]
      by_cases hg : st.grouping_enabled = true
      · rw [if_pos hg]
        exact process_grouped_records recips fail
          { st with alerts := dset st.alerts a.id a } now a hbase
      · rw [if_neg hg]
        refine ⟨true, ?_⟩
        simp only [Alerts.resState, Alerts.send_single]
        rw [dget_markNotified]
        simp [hbase, Alerts.flagSent]
    · have hsn' : Alerts.should_notify st now a = false := by
        cases h : Alerts.should_notify st now a
        · rfl
        · exact absurd h hsn
      rw [process_alert_rejected recips fail st now a hsn']
      exact ⟨a.notification_sent, by simpa [Alerts.resState] using hbase⟩

theorem send_grouped_events_ne (recips : List Int) (fail : Int → Bool)
    (st : Alerts.AMState) (now : Int) (g : Alerts.AlertGroup)
    (h : g.alerts ≠ []) :
    (Alerts.send_grouped recips fail st now g).2 ≠ [] := by
  cases hg : g.alerts with
  | nil => exact absurd hg h
  | cons x xs =>
      rw [send_grouped_events recips fail st now g x xs hg]
      simp

/-- Claim C3 (amended): the bot.py deque-based history store is bounded —
`add_alert` preserves the length bound, and adding to a full store of
positive bound evicts exactly the oldest record (the head) and keeps the
length at the bound, independently of the acknowledgement state of any
record.  (The alerts.py history dict has no such bound: see the
counterexample.) -/
theorem deque_history_bound (st : BotM.BState) (now : Int)
    (lvl msg src : String) :
    (st.history.length ≤ st.max_history →
      (BotM.add_alert st now lvl msg src).1.history.length ≤ st.max_history) ∧
    (st.history.length = st.max_history → 0 < st.max_history →
      (BotM.add_alert st now lvl msg src).1.history =
        st.history.tail ++ [(BotM.add_alert st now lvl msg src).2] ∧
      (BotM.add_alert st now lvl msg src).1.history.length = st.max_history) := by
  constructor
  · intro hle
    simp only [BotM.add_alert, List.length_drop, List.length_append,
      List.length_cons, List.length_nil]
    omega
  · intro heq hpos
    have h1 : st.history.length + 1 - st.max_history = 1 := by omega
    constructor
    · simp only [BotM.add_alert]
      rw [h1, List.drop_append_of_le_length (by omega), List.drop_one]
    · simp only [BotM.add_alert, List.length_drop, List.length_append,
        List.length_cons, List.length_nil]
      omega

/-- Witness for C3: a full store of 100 acknowledged records accepts a
101st record, drops the oldest and stays at 100. -/
theorem deque_history_bound_witness :
    (BotM.add_alert stFull 5 "i" "fresh condition" "s").1.history =
      stFull.history.tail ++ [(BotM.add_alert stFull 5 "i" "fresh condition" "s").2] ∧
    (BotM.add_alert stFull 5 "i" "fresh condition" "s").1.history.length = 100 := by
  have h := (deque_history_bound stFull 5 "i" "fresh condition" "s").2
    (by decide) (by decide)
  exact ⟨h.1, h.2⟩

set_option maxRecDepth 8000 in
/-- Counterexample for C3: the alerts.py implementation of the history
store is unbounded — processing 101 distinct alerts from the default state
leaves 101 records in the history dict, not 100. -/
theorem history_dict_unbounded_cex :
    run101.alerts.length = 101 ∧ ¬ run101.alerts.length = 100 := by
  have h : run101.alerts.length = 101 := by decide
  exact ⟨h, by omega⟩

/-- Claim C5: filtering has no side effect on rejection — processing a
rejected alert leaves the cooldown table, the group map and every other
history entry unchanged (only the record of the alert itself is written to
history); and the cooldown table is written only at actual dispatch: any
call that dispatches no event (rejection, append-without-flush, or the
grouping crash) leaves the cooldown table unchanged. -/
theorem filter_rejection_frame (recips : List Int) (fail : Int → Bool)
    (st : Alerts.AMState) (now : Int) (a : Alerts.AlertRecord) :
    (Alerts.should_notify st now a = false →
      Alerts.process_alert recips fail st now a =
        .ok ({ st with alerts := dset st.alerts a.id a }, []) ∧
      (Alerts.resState (Alerts.process_alert recips fail st now a)).cooldowns
        = st.cooldowns ∧
      (Alerts.resState (Alerts.process_alert recips fail st now a)).groups
        = st.groups ∧
      ∀ j, j ≠ a.id →
        dget (Alerts.resState
          (Alerts.process_alert recips fail st now a)).alerts j
          = dget st.alerts j) ∧
    (Alerts.resEvents (Alerts.process_alert recips fail st now a) = [] →
      (Alerts.resState (Alerts.process_alert recips fail st now a)).cooldowns
        = st.cooldowns) := by
  constructor
  · intro hsn
    have heq := process_alert_rejected recips fail st now a hsn
    refine ⟨heq, by rw [heq]; rfl, by rw [heq]; rfl, ?_⟩
    intro j hj
    rw [heq]
    show dget (dset st.alerts a.id a) j = dget st.alerts j
    rw [dget_dset]
    simp [hj]
  · intro hev
    by_cases hsn : Alerts.should_notify st now a = true
    · rw [process_alert_pass recips fail st now a hsn] at hev ⊢
      by_cases hg : st.grouping_enabled = true
      · rw [if_pos hg] at hev ⊢
        cases hgr : dget st.groups (a.level, a.source) with
        | none =>
            rw [process_grouped_missing recips fail
              { st with alerts := dset st.alerts a.id a } now a hgr]
            rfl
        | some g0 =>
            rw [process_grouped_found recips fail
              { st with alerts := dset st.alerts a.id a } now a g0 hgr] at hev ⊢
            by_cases hf : Alerts.flushDecision now (Alerts.ingestGroup g0 a) a
              = true
            · rw [if_pos hf] at hev
              exfalso
              refine send_grouped_events_ne recips fail
                { st with alerts := dset st.alerts a.id a } now
                (Alerts.ingestGroup g0 a) (by simp [Alerts.ingestGroup]) ?_
              simpa [Alerts.resEvents] using hev
            · rw [if_neg hf]
              rfl
      · rw [if_neg hg] at hev
        exfalso
        simp [Alerts.resEvents, Alerts.send_single] at hev
    · have hsn' : Alerts.should_notify st now a = false := by
        cases h : Alerts.should_notify st now a
        · rfl
        · exact absurd h hsn
      rw [process_alert_rejected recips fail st now a hsn']
      rfl

/-- Witness for C5: a cooldown-rejected alert and an admitted alert that is
appended to a previously flushed group without flushing both leave the
cooldown table unchanged. -/
theorem filter_rejection_frame_witness :
    (Alerts.resState (Alerts.process_alert [] noFail stCd 10 aW)).cooldowns
      = stCd.cooldowns ∧
    (Alerts.resState (Alerts.process_alert [] noFail stG 10 aW3)).cooldowns
      = stG.cooldowns := by
  refine ⟨((filter_rejection_frame [] noFail stCd 10 aW).1 (by decide)).2.1,
    (filter_rejection_frame [] noFail stG 10 aW3).2 (by decide)⟩

/-- Claim C6: the representative of a non-empty flushed group is the stable
maximum by severity rank — a member, with no member ranking above it, and
with every member earlier in insertion order ranking strictly below it; in
particular a group with member levels [warning, critical, warning] selects
the critical member. -/
theorem flush_representative_stable_max (recips : List Int) (fail : Int → Bool)
    (st : Alerts.AMState) (now : Int) (g : Alerts.AlertGroup)
    (x : Alerts.AlertRecord) (xs : List Alerts.AlertRecord)
    (hg : g.alerts = x :: xs) :
    ((Alerts.send_grouped recips fail st now g).2 =
      [.grouped (Alerts.pyMax Alerts.levelRank x xs) g.alerts.length
        (Alerts.attemptAll recips fail)]) ∧
    Alerts.pyMax Alerts.levelRank x xs ∈ g.alerts ∧
    (∀ b ∈ g.alerts,
      Alerts.levelRank b ≤ Alerts.levelRank (Alerts.pyMax Alerts.levelRank x xs)) ∧
    (∃ pre post, g.alerts = pre ++ Alerts.pyMax Alerts.levelRank x xs :: post ∧
      ∀ b ∈ pre,
        Alerts.levelRank b < Alerts.levelRank (Alerts.pyMax Alerts.levelRank x xs)) ∧
    (Alerts.pyMax Alerts.levelRank w1 [c1, w2]).level = .critical := by
  obtain ⟨pre, post, heq, hpre, hmax⟩ := pyMax_first_max Alerts.levelRank x xs
  rw [hg]
  refine ⟨?_, ?_, hmax, ⟨pre, post, heq, hpre⟩, by rfl⟩
  · rw [send_grouped_events recips fail st now g x xs hg]
  · rw [heq]
    exact List.mem_append_right _ (List.mem_cons_self _ _)

/-- Witness for C6: flushing the [warning, critical, warning] group
dispatches the critical member as representative. -/
theorem flush_representative_stable_max_witness :
    (Alerts.send_grouped [] noFail initAM 0 gWCW).2 =
      [.grouped c1 3 []] ∧ c1 ∈ gWCW.alerts := by
  obtain ⟨h1, h2, _, _, _⟩ :=
    flush_representative_stable_max [] noFail initAM 0 gWCW w1 [c1, w2] rfl
  constructor
  · rw [h1]
    rfl
  · exact h2

theorem handleRecipient_send_mem (env : Job.Env) (active : List (Int × Int))
    (uid : Int) :
    Job.JobEvent.sendAttempt uid (env.sendRes uid).isSome ∈
      (Job.handleRecipient env active uid).2 := by
  cases hs : env.sendRes uid <;> cases hd : dget active uid <;>
    simp [Job.handleRecipient, hs, hd]

theorem runJobAux_trace_mono (env : Job.Env) (recips : List Int) :
    ∀ (active : List (Int × Int)) (acc : List Job.JobEvent)
      (e : Job.JobEvent), e ∈ acc →
      e ∈ (Job.runJobAux env recips active acc).2 := by
  induction recips with
  | nil =>
      intro active acc e he
      simpa [Job.runJobAux] using he
  | cons u rest ih =>
      intro active acc e he
      simp only [Job.runJobAux]
      exact ih _ _ e (List.mem_append_left _ he)

theorem runJobAux_send_mem (env : Job.Env) (recips : List Int) (uid : Int) :
    uid ∈ recips → ∀ (active : List (Int × Int)) (acc : List Job.JobEvent),
      Job.JobEvent.sendAttempt uid (env.sendRes uid).isSome ∈
        (Job.runJobAux env recips active acc).2 := by
  induction recips with
  | nil =>
      intro hu
      simp at hu
  | cons u rest ih =>
      intro hu active acc
      simp only [Job.runJobAux]
      rcases List.mem_cons.mp hu with h | h
      · subst h
        exact runJobAux_trace_mono env rest _ _ _
          (List.mem_append_right _ (handleRecipient_send_mem env active uid))
      · exact ih h _ _

theorem handleRecipient_keys (env : Job.Env) (active : List (Int × Int))
    (uid : Int) (h : (active.map Prod.fst).Nodup) :
    (((Job.handleRecipient env active uid).1).map Prod.fst).Nodup := by
  cases hs : env.sendRes uid
  · simpa [Job.handleRecipient, hs] using h
  · simp only [Job.handleRecipient, hs]
    exact nodup_keys_dset active uid _ h

theorem runJobAux_keys (env : Job.Env) (recips : List Int) :
    ∀ (active : List (Int × Int)) (acc : List Job.JobEvent),
      (active.map Prod.fst).Nodup →
      (((Job.runJobAux env recips active acc).1).map Prod.fst).Nodup := by
  induction recips with
  | nil =>
      intro active acc h
      simpa [Job.runJobAux] using h
  | cons u rest ih =>
      intro active acc h
      simp only [Job.runJobAux]
      exact ih _ _ (handleRecipient_keys env active u h)

/-- Claim C7: sticky critical — for a recipient with a tracked active
critical message, the job emits the delete attempt for exactly that
message and then the send attempt, whatever the delete outcome (the
`BadRequest` of an already-removed message is swallowed and does not
prevent the send); every recipient of the list receives a send attempt
whatever the outcomes for the others (including send failures); and the
tracking dict keeps at most one message id per recipient (distinct keys
are preserved). -/
theorem sticky_critical (env : Job.Env) (active : List (Int × Int))
    (uid mid : Int) (recips : List Int) :
    (dget active uid = some mid →
      (Job.handleRecipient env active uid).2 =
        [Job.JobEvent.deleteAttempt uid mid (env.delRes uid),
         Job.JobEvent.sendAttempt uid (env.sendRes uid).isSome]) ∧
    (uid ∈ recips →
      Job.JobEvent.sendAttempt uid (env.sendRes uid).isSome ∈
        (Job.runJob env recips active).2) ∧
    ((active.map Prod.fst).Nodup →
      ((Job.runJob env recips active).1.map Prod.fst).Nodup) := by
  refine ⟨?_, ?_, ?_⟩
  · intro h
    cases hs : env.sendRes uid <;> simp [Job.handleRecipient, h, hs]
  · intro hu
    exact runJobAux_send_mem env recips uid hu active []
  · intro h
    exact runJobAux_keys env recips active [] h

/-- Witness for C7: with one tracked message for recipient 1, a
`BadRequest` on every delete and successful sends, recipient 1 gets the
delete attempt and then the send, recipient 2 is still attempted, and the
tracking keys stay distinct. -/
theorem sticky_critical_witness :
    (Job.handleRecipient envBR [(1, 42)] 1).2 =
      [Job.JobEvent.deleteAttempt 1 42 .badRequest,
       Job.JobEvent.sendAttempt 1 true] ∧
    Job.JobEvent.sendAttempt 2 true ∈ (Job.runJob envBR [1, 2] [(1, 42)]).2 ∧
    (((Job.runJob envBR [1, 2] [(1, 42)]).1).map Prod.fst).Nodup := by
  obtain ⟨h1, _, h3⟩ := sticky_critical envBR [(1, 42)] 1 42 [1, 2]
  obtain ⟨_, h2, _⟩ := sticky_critical envBR [(1, 42)] 2 42 [1, 2]
  exact ⟨h1 (by decide), h2 (by decide), h3 (by decide)⟩

/-- Claim C8: fan-out is independent and not rolled back — for any failure
pattern (including every recipient failing), every recipient has exactly
one delivery attempt in the dispatched event, and after the dispatch the
cooldown entry of every relevant key equals the dispatch time and
`notification_sent` is true on every history record involved, on both the
single-alert and the grouped path. -/
theorem fanout_independent (recips : List Int) (fail : Int → Bool)
    (st : Alerts.AMState) (now : Int) (a : Alerts.AlertRecord)
    (g : Alerts.AlertGroup) :
    ((Alerts.send_single recips fail st now a).2 =
      [.single (Alerts.flagSent a) (Alerts.attemptAll recips fail)]) ∧
    (∀ u ∈ recips, (u, !fail u) ∈ Alerts.attemptAll recips fail) ∧
    (dget (Alerts.send_single recips fail st now a).1.cooldowns
      (Alerts.cooldownKey a) = some now) ∧
    (∀ r, dget st.alerts a.id = some r →
      dget (Alerts.send_single recips fail st now a).1.alerts a.id =
        some (Alerts.flagSent r)) ∧
    (∀ m ∈ g.alerts,
      dget (Alerts.send_grouped recips fail st now g).1.cooldowns
        (Alerts.cooldownKey m) = some now) ∧
    (∀ m ∈ g.alerts, ∀ r, dget st.alerts m.id = some r →
      ∃ r', dget (Alerts.send_grouped recips fail st now g).1.alerts m.id =
        some r' ∧ r'.notification_sent = true) := by
  refine ⟨rfl, ?_, ?_, ?_, ?_, ?_⟩
  · intro u hu
    exact List.mem_map.mpr ⟨u, hu, rfl⟩
  · show dget (dset st.cooldowns (Alerts.cooldownKey a) now)
      (Alerts.cooldownKey a) = some now
    rw [dget_dset]
    simp
  · intro r hr
    show dget (Alerts.markNotified st.alerts a.id) a.id =
      some (Alerts.flagSent r)
    rw [dget_markNotified]
    simp [hr]
  · intro m hm
    exact dget_send_grouped_cooldowns recips fail st now g _
      (List.any_eq_true.mpr ⟨m, hm, by simp⟩)
  · intro m hm r hr
    rw [dget_send_grouped_alerts recips fail st now g m.id
      (List.any_eq_true.mpr ⟨m, hm, by simp⟩), hr]
    exact ⟨Alerts.flagSent r, rfl, rfl⟩

/-- Witness for C8: with every send failing, both recipients are still
attempted, and the cooldown entries are set to the dispatch time on both
paths. -/
theorem fanout_independent_witness :
    (Alerts.send_single [1, 2] allFail initAM 50 aW).2 =
      [.single (Alerts.flagSent aW) [(1, false), (2, false)]] ∧
    (1, false) ∈ Alerts.attemptAll [1, 2] allFail ∧
    dget (Alerts.send_single [1, 2] allFail initAM 50 aW).1.cooldowns
      (Alerts.cooldownKey aW) = some 50 ∧
    dget (Alerts.send_grouped [1, 2] allFail initAM 50 gWCW).1.cooldowns
      (Alerts.cooldownKey c1) = some 50 := by
  obtain ⟨h1, h2, h3, _, h5, _⟩ := fanout_independent [1, 2] allFail initAM 50 aW gWCW
  exact ⟨by rw [h1]; rfl, h2 1 (by decide), h3, h5 c1 (by decide)⟩

/-- Claim C9: acknowledge-by-id in both implementations — the alerts.py
dict-based acknowledge returns true iff the id is present, on success sets
exactly that record's flag leaving every other entry unchanged, and on a
missing id returns false with the state untouched; the bot.py list-based
acknowledge returns true iff some record bears the id, leaves the state
untouched when absent, and on success flags exactly the first record with
that id, leaving all other records unchanged. -/
theorem acknowledge_found_iff (st : Alerts.AMState) (bst : BotM.BState)
    (i : String) :
    ((Alerts.acknowledge st i).2 = true ↔ (dget st.alerts i).isSome) ∧
    (∀ r, dget st.alerts i = some r →
      (Alerts.acknowledge st i).1 =
        { st with alerts := dset st.alerts i { r with acknowledged := true } } ∧
      dget (Alerts.acknowledge st i).1.alerts i =
        some { r with acknowledged := true } ∧
      ∀ j, j ≠ i →
        dget (Alerts.acknowledge st i).1.alerts j = dget st.alerts j) ∧
    (dget st.alerts i = none → Alerts.acknowledge st i = (st, false)) ∧
    ((BotM.acknowledge bst i).2 = true ↔ ∃ r ∈ bst.history, r.id = i) ∧
    ((BotM.acknowledge bst i).2 = false →
      BotM.acknowledge bst i = (bst, false)) ∧
    ((BotM.acknowledge bst i).2 = true →
      ∃ pre r post, bst.history = pre ++ r :: post ∧ r.id = i ∧
        (∀ x ∈ pre, x.id ≠ i) ∧
        (BotM.acknowledge bst i).1.history =
          pre ++ ({ r with acknowledged := true }) :: post) := by
  obtain ⟨hist, maxh, aam, lc0, cnt⟩ := bst
  obtain ⟨hf, ht⟩ := ackList_spec hist i
  have hsnd : (BotM.acknowledge ⟨hist, maxh, aam, lc0, cnt⟩ i).2 =
      (BotM.ackList hist i).2 := rfl
  have hfst : (BotM.acknowledge ⟨hist, maxh, aam, lc0, cnt⟩ i).1.history =
      (BotM.ackList hist i).1 := rfl
  refine ⟨?_, ?_, ?_, ?_, ?_, ?_⟩
  · unfold Alerts.acknowledge
    cases h : dget st.alerts i <;> simp
  · intro r h
    have heq : Alerts.acknowledge st i =
        ({ st with alerts := dset st.alerts i { r with acknowledged := true } },
         true) := by
      unfold Alerts.acknowledge
      rw [h]
    refine ⟨by rw [heq], ?_, ?_⟩
    · rw [heq]
      show dget (dset st.alerts i { r with acknowledged := true }) i =
        some { r with acknowledged := true }
      rw [dget_dset]
      simp
    · intro j hj
      rw [heq]
      show dget (dset st.alerts i { r with acknowledged := true }) j =
        dget st.alerts j
      rw [dget_dset]
      simp [hj]
  · intro h
    unfold Alerts.acknowledge
    rw [h]
  · rw [hsnd]
    constructor
    · intro h
      obtain ⟨pre, r, post, he, hid, _, _⟩ := ht h
      refine ⟨r, ?_, hid⟩
      show r ∈ hist
      rw [he]
      exact List.mem_append_right _ (List.mem_cons_self _ _)
    · intro ⟨r, hmem, hid⟩
      cases h : (BotM.ackList hist i).2
      · obtain ⟨_, hall⟩ := hf h
        exact absurd hid (hall r hmem)
      · rfl
  · intro h
    rw [hsnd] at h
    obtain ⟨he, _⟩ := hf h
    cases lc0 with
    | none =>
        simp only [BotM.acknowledge]
        rw [he, h]
    | some lc =>
        simp only [BotM.acknowledge]
        rw [he, h]
        simp
  · intro h
    rw [hsnd] at h
    obtain ⟨pre, r, post, he, hid, hpre, hres⟩ := ht h
    exact ⟨pre, r, post, he, hid, hpre, by rw [hfst, hres]⟩

/-- Witness for C9: both stores acknowledge an existing id and refuse a
missing one untouched. -/
theorem acknowledge_found_iff_witness :
    (Alerts.acknowledge stOne "ALR-0001").2 = true ∧
    dget (Alerts.acknowledge stOne "ALR-0001").1.alerts "ALR-0001" =
      some { aW with acknowledged := true } ∧
    Alerts.acknowledge stOne "missing" = (stOne, false) ∧
    (BotM.acknowledge bst1 "ALR-0002").2 = true ∧
    BotM.acknowledge bst1 "missing" = (bst1, false) := by
  refine ⟨?_, ?_, ?_, ?_, ?_⟩
  · exact (acknowledge_found_iff stOne bst1 "ALR-0001").1.mpr (by decide)
  · exact ((acknowledge_found_iff stOne bst1 "ALR-0001").2.1 aW (by decide)).2.1
  · exact (acknowledge_found_iff stOne bst1 "missing").2.2.1 (by decide)
  · exact (acknowledge_found_iff stOne bst1 "ALR-0002").2.2.2.1.mpr
      ⟨r2, by decide, by decide⟩
  · exact (acknowledge_found_iff stOne bst1 "missing").2.2.2.2.1 (by decide)

theorem firstCritical_spec (alerts : List Monitor.SAlert) (a : Monitor.SAlert)
    (h : Monitor.firstCritical alerts = some a) :
    a.level = "!" ∧ a ∈ alerts := by
  unfold Monitor.firstCritical at h
  cases hl : alerts.filter (fun x => x.level = "!") with
  | nil =>
      rw [hl] at h
      simp at h
  | cons x xs =>
      rw [hl] at h
      simp at h
      subst h
      have hx : x ∈ alerts.filter (fun x => x.level = "!") := by
        rw [hl]
        exact List.mem_cons_self _ _
      have hm := List.mem_filter.mp hx
      exact ⟨by simpa using hm.2, hm.1⟩

/-- Claim C10: the critical-check dedup — a returned alert is a critical
member of the tick whose message differs from the remembered last-returned
message, and it becomes the new remembered state; a tick whose first
critical alert carries the remembered message returns none and keeps the
state; a tick with no critical alerts returns none and clears the state;
and once cleared, a tick with a critical alert returns it again. -/
theorem critical_check_dedup (last : Option Monitor.SAlert)
    (alerts : List Monitor.SAlert) :
    (∀ a, (Monitor.check_critical_alerts last alerts).1 = some a →
      a.level = "!" ∧ a ∈ alerts ∧
      (∀ lc, last = some lc → lc.message ≠ a.message) ∧
      (Monitor.check_critical_alerts last alerts).2 = some a) ∧
    (∀ lc a, last = some lc → Monitor.firstCritical alerts = some a →
      a.message = lc.message →
      Monitor.check_critical_alerts last alerts = (none, some lc)) ∧
    (Monitor.firstCritical alerts = none →
      Monitor.check_critical_alerts last alerts = (none, none)) ∧
    (last = none → ∀ a, Monitor.firstCritical alerts = some a →
      Monitor.check_critical_alerts last alerts = (some a, some a)) := by
  cases hfc : Monitor.firstCritical alerts with
  | none =>
      have hred : Monitor.check_critical_alerts last alerts = (none, none) := by
        unfold Monitor.check_critical_alerts
        rw [hfc]
      refine ⟨?_, ?_, fun _ => hred, ?_⟩
      · intro a ha
        rw [hred] at ha
        simp at ha
      · intro lc a _ hfa _
        cases hfa
      · intro _ a hfa
        cases hfa
  | some na =>
      obtain ⟨hlev, hmem⟩ := firstCritical_spec alerts na hfc
      cases last with
      | none =>
          have hred : Monitor.check_critical_alerts none alerts =
              (some na, some na) := by
            unfold Monitor.check_critical_alerts
            rw [hfc]
          refine ⟨?_, ?_, ?_, ?_⟩
          · intro a ha
            rw [hred] at ha
            simp at ha
            subst ha
            exact ⟨hlev, hmem, by simp, by rw [hred]⟩
          · intro lc a hlc
            cases hlc
          · intro hnone
            cases hnone
          · intro _ a hfa
            injection hfa with h
            subst h
            exact hred
      | some lc =>
          by_cases hmsg : lc.message ≠ na.message
          · have hred : Monitor.check_critical_alerts (some lc) alerts =
                (some na, some na) := by
              unfold Monitor.check_critical_alerts
              rw [hfc]
              simp [hmsg]
            refine ⟨?_, ?_, ?_, ?_⟩
            · intro a ha
              rw [hred] at ha
              simp at ha
              subst ha
              refine ⟨hlev, hmem, ?_, by rw [hred]⟩
              intro lc' hlc'
              injection hlc' with h
              subst h
              exact hmsg
            · intro lc' a hlc' hfa hmsg'
              injection hlc' with h
              subst h
              injection hfa with h2
              subst h2
              exact absurd hmsg' (fun hx => hmsg hx.symm)
            · intro hnone
              cases hnone
            · intro hcontra
              cases hcontra
          · have hmsg' : lc.message = na.message := not_not.mp (by simpa using hmsg)
            have hred : Monitor.check_critical_alerts (some lc) alerts =
                (none, some lc) := by
              unfold Monitor.check_critical_alerts
              rw [hfc]
              simp [hmsg']
            refine ⟨?_, ?_, ?_, ?_⟩
            · intro a ha
              rw [hred] at ha
              simp at ha
            · intro lc' a hlc' hfa _
              injection hlc' with h
              subst h
              exact hred
            · intro hnone
              cases hnone
            · intro hcontra
              cases hcontra

/-- Witness for C10: a fresh critical condition is returned, the unchanged
condition on the next tick is not, and a tick without criticals clears the
remembered state. -/
theorem critical_check_dedup_witness :
    Monitor.check_critical_alerts none [sI, sC] = (some sC, some sC) ∧
    Monitor.check_critical_alerts (some sC) [sI, sC] = (none, some sC) ∧
    Monitor.check_critical_alerts (some sC) [sI] = (none, none) := by
  refine ⟨?_, ?_, ?_⟩
  · exact (critical_check_dedup none [sI, sC]).2.2.2 rfl sC (by decide)
  · exact (critical_check_dedup (some sC) [sI, sC]).2.1 sC sC rfl (by decide) rfl
  · exact (critical_check_dedup (some sC) [sI]).2.2.1 (by decide)

/-- Witness for C4: an info-level alert under the default warning minimum
is recorded in history and triggers nothing. -/
theorem severity_gate_witness :
    Alerts.should_notify initAM 0 (mkInfo 0) = false ∧
    Alerts.process_alert [] noFail initAM 0 (mkInfo 0) =
      .ok ({ initAM with alerts := dset initAM.alerts (mkInfo 0).id (mkInfo 0) }, []) ∧
    (∃ b, dget (Alerts.resState
        (Alerts.process_alert [] noFail initAM 0 (mkInfo 0))).alerts (mkInfo 0).id =
      some { mkInfo 0 with notification_sent := b }) := by
  obtain ⟨h1, h2⟩ := severity_gate [] noFail initAM 0 (mkInfo 0)
  obtain ⟨ha, hb⟩ := h1 (by decide)
  exact ⟨ha, hb, h2⟩

end TGBot
